import Mathlib

/-!
Shallow embedding of `mmrazor/models/architectures/dynamic_op/bricks/dynamic_attention.py`
(classes `MultiheadAttention` and `DynamicMultiheadAttention`).

Tensors are modelled as a shape (list of dimension sizes) together with a flat,
row-major list of rational entries.  Every torch operation used by the source is
given an executable model that performs the same shape checks torch performs on
these call sites and returns `Except PyErr _` (a raised Python exception is an
`Except.error`).  The two transcendental ingredients of the computation, `exp`
(used only inside softmax) and `x ** -0.5` (used only for the default attention
scale), are passed in as abstract function parameters `qexp` and `rsqrt`, so
that every definition stays executable.
-/

namespace DynAttn

/-- Python exceptions that the modelled code can raise. -/
inductive PyErr where
  /-- TypeError, e.g. calling a `torch.Size` object as a function. -/
  | typeError
  /-- AttributeError: an attribute that does not exist on the object. -/
  | attributeError
  /-- ZeroDivisionError, e.g. `x // 0` or `0.0 ** -0.5`. -/
  | zeroDivision
  /-- RuntimeError raised by torch on a shape mismatch. -/
  | shapeError
  /-- ValueError, e.g. unpacking `x.shape` into the wrong number of names. -/
  | valueError
deriving Repr, DecidableEq

/-- A tensor: a shape and its entries in row-major order. -/
structure Tensor where
  shape : List Nat
  data : List ℚ
deriving Repr

/-- Number of entries described by the shape. -/
def Tensor.numel (t : Tensor) : Nat := t.shape.prod

/-- Number of dimensions. -/
def Tensor.rank (t : Tensor) : Nat := t.shape.length

/-- Decode a flat row-major position into a multi-index for `shape`. -/
def multiIdx : List Nat → Nat → List Nat
  | [], _ => []
  | _ :: ds, n => (n / ds.prod) :: multiIdx ds (n % ds.prod)

/-- Encode a multi-index as a flat row-major position. -/
def flatIdx : List Nat → List Nat → Nat
  | [], _ => 0
  | _ :: _, [] => 0
  | _ :: ds, i :: is => i * ds.prod + flatIdx ds is

/-- Entry of a tensor at a multi-index (0 outside the data). -/
def Tensor.entry (t : Tensor) (idx : List Nat) : ℚ :=
  t.data.getD (flatIdx t.shape idx) 0

/-- Build a tensor of a given shape from an entry function. -/
def Tensor.ofFn (shape : List Nat) (f : List Nat → ℚ) : Tensor :=
  ⟨shape, (List.range shape.prod).map (fun n => f (multiIdx shape n))⟩

/-- Division by iterated subtraction (`fuel` bounds the recursion); equal to
`a / b` — see `natDiv_eq_div`.  `Nat.div` itself is defined by well-founded
recursion, which blocks definitional reduction on symbolic terms, so the
tensor operations use this structurally recursive equivalent. -/
def subDiv : Nat → Nat → Nat → Nat
  | 0, _, _ => 0
  | fuel + 1, a, b => if a < b then 0 else subDiv fuel (a - b) b + 1

/-- Structurally recursive equivalent of `a / b`. -/
def natDiv (a b : Nat) : Nat := if b = 0 then 0 else subDiv a a b

/-- Structurally recursive equivalent of `a % b`. -/
def natMod (a b : Nat) : Nat := a - b * natDiv a b

/-- Resolve a torch shape argument (which may contain a single `-1` to be
inferred) against a total number of elements; `none` models the RuntimeError
torch raises when the sizes are incompatible. -/
def resolveShape (numel : Nat) (dims : List Int) : Option (List Nat) :=
  if dims.all (fun d => 0 ≤ d) then
    let s := dims.map Int.toNat
    if s.prod = numel then some s else none
  else if dims.count (-1) = 1 ∧ dims.all (fun d => 0 ≤ d ∨ d = -1) then
    let p := ((dims.filter (fun d => 0 ≤ d)).map Int.toNat).prod
    if p ≠ 0 ∧ natMod numel p = 0 then
      some (dims.map (fun d => if d = -1 then natDiv numel p else d.toNat))
    else none
  else none

/-- `Tensor.reshape`: reinterpret the (contiguous, row-major) data with a new
shape; raises when the element counts are incompatible. -/
def Tensor.reshape (t : Tensor) (dims : List Int) : Except PyErr Tensor :=
  match resolveShape t.numel dims with
  | some s => .ok ⟨s, t.data⟩
  | none => .error .shapeError

/-- `Tensor.view`: on the call sites of the source `view` is applied to freshly
materialised (contiguous) tensors, where it agrees with `reshape`. -/
def Tensor.view (t : Tensor) (dims : List Int) : Except PyErr Tensor :=
  t.reshape dims

/-- Normalise a possibly-negative torch dimension argument. -/
def normDim (rank : Nat) (i : Int) : Int := if i < 0 then i + rank else i

/-- Swap the entries at positions `i` and `j` of a list of naturals. -/
def swapNat (l : List Nat) (i j : Nat) : List Nat :=
  (l.set i (l.getD j 0)).set j (l.getD i 0)

/-- `torch.transpose(t, d1, d2)`: swap two dimensions. -/
def Tensor.transpose (t : Tensor) (d1 d2 : Int) : Except PyErr Tensor :=
  let r := t.rank
  let i := normDim r d1
  let j := normDim r d2
  if 0 ≤ i ∧ i < (r : Int) ∧ 0 ≤ j ∧ j < (r : Int) then
    let i := i.toNat
    let j := j.toNat
    .ok (Tensor.ofFn (swapNat t.shape i j) (fun idx => t.entry (swapNat idx i j)))
  else .error .shapeError

/-- Position of the first occurrence of `a` in `l` (length of `l` if absent). -/
def posOf : List Nat → Nat → Nat
  | [], _ => 0
  | b :: bs, a => if b = a then 0 else posOf bs a + 1

/-- `torch.permute`: reorder the dimensions by a permutation. -/
def Tensor.permute (t : Tensor) (perm : List Nat) : Except PyErr Tensor :=
  if perm.length = t.rank ∧ perm.all (· < t.rank) ∧ perm.Nodup then
    let newShape := perm.map (fun p => t.shape.getD p 0)
    .ok (Tensor.ofFn newShape
      (fun idx => t.entry ((List.range t.rank).map (fun p => idx.getD (posOf perm p) 0))))
  else .error .shapeError

/-- Batched matrix multiplication `a @ b` for tensors of rank at least 2 with
equal batch prefixes (the only form the source uses). -/
def Tensor.matmul (a b : Tensor) : Except PyErr Tensor :=
  match a.shape.reverse, b.shape.reverse with
  | m :: n :: batchA, p :: m2 :: batchB =>
    if m = m2 ∧ batchA = batchB then
      let batch := batchA.reverse
      .ok (Tensor.ofFn (batch ++ [n, p]) (fun idx =>
        let bi := idx.take batch.length
        let i := idx.getD batch.length 0
        let j := idx.getD (batch.length + 1) 0
        ((List.range m).map
          (fun k => a.entry (bi ++ [i, k]) * b.entry (bi ++ [k, j]))).sum))
    else .error .shapeError
  | _, _ => .error .shapeError

/-- Multiplication of a tensor by a scalar (`t * c`). -/
def Tensor.smul (c : ℚ) (t : Tensor) : Tensor :=
  ⟨t.shape, t.data.map (· * c)⟩

/-- Elementwise addition.  On every addition the source performs, torch
broadcasting either leaves the shapes untouched (equal shapes) or raises, so
equal-shape addition is the faithful model of these call sites. -/
def Tensor.add (a b : Tensor) : Except PyErr Tensor :=
  if a.shape = b.shape then .ok ⟨a.shape, a.data.zipWith (· + ·) b.data⟩
  else .error .shapeError

/-- `softmax(dim=-1)` with the exponential passed in as `qexp`. -/
def Tensor.softmaxLast (qexp : ℚ → ℚ) (t : Tensor) : Tensor :=
  let d := t.shape.getLastD 1
  Tensor.ofFn t.shape (fun idx =>
    let pre := idx.take (t.rank - 1)
    qexp (t.entry idx) /
      ((List.range d).map (fun k => qexp (t.entry (pre ++ [k])))).sum)

/-- `nn.Dropout(p)` applied to a tensor.  In evaluation mode dropout is the
identity.  In training mode each entry is kept (and rescaled by `1/(1-p)`)
or zeroed according to the Bernoulli draw recorded in `mask`; for `p = 0` the
draw keeps every entry almost surely and the rescaling factor is `1`. -/
def Tensor.dropout (p : ℚ) (training : Bool) (mask : Nat → Bool) (t : Tensor) : Tensor :=
  if training then
    ⟨t.shape, t.data.mapIdx (fun n a => if mask n then a / (1 - p) else 0)⟩
  else t

/-- `t.squeeze(d)`: drop dimension `d` when it has size 1, otherwise return the
tensor unchanged. -/
def Tensor.squeeze (t : Tensor) (d : Nat) : Tensor :=
  if t.shape.getD d 0 = 1 then ⟨t.shape.eraseIdx d, t.data⟩ else t

/-- A linear layer: weight of shape `[out_features, in_features]` plus an
optional bias of shape `[out_features]`. -/
structure Linear where
  weight : Tensor
  bias : Option Tensor
deriving Repr

/-- `nn.Linear(in_features, out_features, bias)`: the layer allocates a weight
of shape `(out_features, in_features)` (and optionally a bias) filled with
freshly drawn initial values, supplied here by `w` and `b`. -/
def mkLinear (inf out : Nat) (useBias : Bool) (w : Nat → Nat → ℚ) (b : Nat → ℚ) : Linear :=
  ⟨Tensor.ofFn [out, inf] (fun idx => w (idx.getD 0 0) (idx.getD 1 0)),
   if useBias then some ⟨[out], (List.range out).map b⟩ else none⟩

/-- Application of a linear layer, `l(x) = x @ l.weightᵗ + l.bias`; raises when
the trailing dimension of `x` differs from `in_features`. -/
def Tensor.linear (x : Tensor) (l : Linear) : Except PyErr Tensor :=
  match l.weight.shape with
  | [out, inf] =>
    match x.shape.reverse with
    | xin :: rest =>
      if xin = inf then
        let pre := rest.reverse
        .ok (Tensor.ofFn (pre ++ [out]) (fun idx =>
          let p := idx.take pre.length
          let o := idx.getD pre.length 0
          ((List.range inf).map
            (fun i => x.entry (p ++ [i]) * l.weight.entry [o, i])).sum
          + (match l.bias with | some bt => bt.data.getD o 0 | none => 0)))
      else .error .shapeError
    | [] => .error .shapeError
  | _ => .error .shapeError

/-- Modelled from the spec: `RelativePosition2D` lives in
`dynamic_relative_position.py`, which is not part of the given sources.  Per
the spec it holds a learned embedding table indexed by a clipped relative
distance (clipping saturates distances beyond `max_relative_position` to the
boundary row) and a number of units, and `lookup(len_q, len_k)` gathers the
table rows into a dense bias tensor with no batch dimension. -/
structure RelativePosition2D where
  num_units : Nat
  max_relative_position : Nat
  table : Nat → Nat → ℚ

/-- Modelled from the spec: the clipped relative-distance index
`clip(j - i, -(max-1), max-1) + (max-1)`. -/
def clipDist (maxRel : Nat) (i j : Nat) : Nat :=
  (max (-((maxRel : Int) - 1)) (min ((j : Int) - (i : Int)) ((maxRel : Int) - 1))
    + ((maxRel : Int) - 1)).toNat

/-- Modelled from the spec: the dense relative-position bias tensor of shape
`(len_q, len_k, num_units)` produced by a table lookup at the clipped
distance. -/
def RelativePosition2D.lookup (r : RelativePosition2D) (len_q len_k : Nat) : Tensor :=
  Tensor.ofFn [len_q, len_k, r.num_units]
    (fun idx => r.table (clipDist r.max_relative_position (idx.getD 0 0) (idx.getD 1 0))
      (idx.getD 2 0))

/-- Modelled from the spec: `DynamicRelativePosition2D` (also from the missing
`dynamic_relative_position.py`) wraps the same table and additionally can serve
a head-count-dependent slice; for this development only its construction data
matter. -/
structure DynamicRelativePosition2D where
  num_units : Nat
  max_relative_position : Nat
  table : Nat → Nat → ℚ

/-- The stochastic context of one forward call: whether the module is in
training mode, and the Bernoulli keep-masks drawn by the three dropout
layers. -/
structure DropoutCtx where
  training : Bool
  maskAttn : Nat → Bool
  maskProj : Nat → Bool
  maskOut : Nat → Bool

/-- The constructor arguments of `MultiheadAttention.__init__` with their
Python default values. -/
structure MHAArgs where
  embed_dims : Nat
  num_heads : Nat
  input_dims : Option Nat := none
  attn_drop : ℚ := 0
  proj_drop : ℚ := 0
  drop_prob : ℚ := 0
  relative_position : Bool := true
  max_relative_position : Nat := 14
  qkv_bias : Bool := true
  qk_scale : Option ℚ := none
  proj_bias : Bool := true
  v_shortcut : Bool := false

/-- The fresh random initial values drawn when the constructor allocates its
parameter tensors (`nn.Linear` weights and biases, relative-position
tables). -/
structure FreshParams where
  wq : Nat → Nat → ℚ
  bq : Nat → ℚ
  wk : Nat → Nat → ℚ
  bk : Nat → ℚ
  wv : Nat → Nat → ℚ
  bv : Nat → ℚ
  wp : Nat → Nat → ℚ
  bp : Nat → ℚ
  tk : Nat → Nat → ℚ
  tv : Nat → Nat → ℚ

/-- State of a constructed `MultiheadAttention` module (source lines 47-90). -/
structure MultiheadAttention where
  input_dims : Nat
  embed_dims : Nat
  num_heads : Nat
  v_shortcut : Bool
  relative_position : Bool
  max_relative_position : Nat
  head_dims : Nat
  scale : ℚ
  w_qs : Linear
  w_ks : Linear
  w_vs : Linear
  attn_drop_p : ℚ
  proj : Linear
  proj_drop_p : ℚ
  out_drop_p : ℚ
  rel_pos_embed_k : Option RelativePosition2D
  rel_pos_embed_v : Option RelativePosition2D

/-- `MultiheadAttention.__init__` (source lines 47-90).  There is no
divisibility check: `head_dims` is the floor `embed_dims // num_heads` (a
`ZeroDivisionError` when `num_heads = 0`), and the scale is
`qk_scale or head_dims ** -0.5`, where Python's `or` falls through to the
default for every falsy `qk_scale` (`None`, `0`, `0.0`); `0 ** -0.5` raises
`ZeroDivisionError`.  `rsqrt d` stands for the float `d ** -0.5` (with `d` a
positive integer). -/
def MultiheadAttention.init (a : MHAArgs) (f : FreshParams) (rsqrt : Nat → ℚ) :
    Except PyErr MultiheadAttention := do
  let input_dims := match a.input_dims with
    | some v => if v = 0 then a.embed_dims else v
    | none => a.embed_dims
  if a.num_heads = 0 then throw .zeroDivision
  let head_dims := a.embed_dims / a.num_heads
  let scale ← match a.qk_scale with
    | some c =>
      if c = 0 then
        if head_dims = 0 then throw PyErr.zeroDivision else pure (rsqrt head_dims)
      else pure c
    | none =>
      if head_dims = 0 then throw PyErr.zeroDivision else pure (rsqrt head_dims)
  pure
    { input_dims := input_dims
      embed_dims := a.embed_dims
      num_heads := a.num_heads
      v_shortcut := a.v_shortcut
      relative_position := a.relative_position
      max_relative_position := a.max_relative_position
      head_dims := head_dims
      scale := scale
      w_qs := mkLinear input_dims (a.num_heads * head_dims) a.qkv_bias f.wq f.bq
      w_ks := mkLinear input_dims (a.num_heads * head_dims) a.qkv_bias f.wk f.bk
      w_vs := mkLinear input_dims (a.num_heads * head_dims) a.qkv_bias f.wv f.bv
      attn_drop_p := a.attn_drop
      proj := mkLinear a.embed_dims a.embed_dims a.proj_bias f.wp f.bp
      proj_drop_p := a.proj_drop
      out_drop_p := a.drop_prob
      rel_pos_embed_k :=
        if a.relative_position then
          some ⟨a.num_heads, a.max_relative_position, f.tk⟩
        else none
      rel_pos_embed_v :=
        if a.relative_position then
          some ⟨a.num_heads, a.max_relative_position, f.tv⟩
        else none }

/-- Reading `self.rel_pos_embed_k` / `self.rel_pos_embed_v`: when
`relative_position` was false at construction the attribute was never created,
so accessing it raises `AttributeError`. -/
def getRel : Option RelativePosition2D → Except PyErr RelativePosition2D
  | some r => .ok r
  | none => .error PyErr.attributeError

/-- Lines 103-107 of the source, the `if self.relative_position:` branch of
`forward` that adds the key-side relative-position bias to the raw attention
scores (a no-op when `relp` is false); `relp` is passed
`self.relative_position` by the caller. -/
def addScoreBias (m : MultiheadAttention) (relp : Bool) (attn q : Tensor)
    (B N : Nat) : Except PyErr Tensor :=
  if relp then do
    let rel ← getRel m.rel_pos_embed_k
    let r_p_k := rel.lookup N N
    let t1 ← q.permute [2, 0, 1, 3]
    let t1 ← t1.reshape [(N : Int), ((m.num_heads * B : Nat) : Int), -1]
    let t2 ← t1.matmul (← r_p_k.transpose 2 1)
    let t2 ← t2.transpose 1 0
    let t2 ← t2.reshape [(B : Int), (m.num_heads : Int), (N : Int), (N : Int)]
    attn.add (Tensor.smul m.scale t2)
  else pure attn

/-- Lines 113-118 of the source, the second `if self.relative_position:`
branch of `forward` that adds the value-side relative-position contribution to
the aggregated output (a no-op when `relp` is false). -/
def addValueBias (m : MultiheadAttention) (relp : Bool) (y attn : Tensor)
    (B N : Nat) : Except PyErr Tensor :=
  if relp then do
    let rel ← getRel m.rel_pos_embed_v
    let r_p_v := rel.lookup N N
    let ta ← attn.permute [2, 0, 1, 3]
    let ta ← ta.reshape [(N : Int), ((B * m.num_heads : Nat) : Int), -1]
    let t2 ← ta.matmul r_p_v
    let t2 ← t2.transpose 1 0
    let t2 ← t2.reshape [(B : Int), (m.num_heads : Int), (N : Int), -1]
    let t2 ← t2.transpose 2 1
    let t2 ← t2.reshape [(B : Int), (N : Int), -1]
    y.add t2
  else pure y

/-- Lines 123-124 of the source, the `if self.v_shortcut:` step
`x = v.squeeze(1) + x` (the identity when `flag` is false); `flag` is passed
`self.v_shortcut` by the caller. -/
def vShortcutStep (flag : Bool) (v y : Tensor) : Except PyErr Tensor :=
  if flag then (v.squeeze 1).add y else pure y

/-- Line 93 of the source, `B, N, _ = x.shape`: unpacking the shape of a
tensor that is not 3-dimensional raises `ValueError`. -/
def shapeBN : List Nat → Except PyErr (Nat × Nat)
  | [b, n, _] => .ok (b, n)
  | _ => .error PyErr.valueError

/-- The body of `MultiheadAttention.forward` (source lines 92-121) up to but
not including the `v_shortcut` branch: returns the (transposed, pre-attention)
value tensor `v` together with the post-projection, post-dropout result. -/
def MultiheadAttention.forwardCore (m : MultiheadAttention) (ctx : DropoutCtx)
    (qexp : ℚ → ℚ) (x : Tensor) : Except PyErr (Tensor × Tensor) := do
  let (B, N) ← shapeBN x.shape
  let q ← (← x.linear m.w_qs).view [(B : Int), (N : Int), (m.num_heads : Int), (m.head_dims : Int)]
  let k ← (← x.linear m.w_ks).view [(B : Int), (N : Int), (m.num_heads : Int), (m.head_dims : Int)]
  let v ← (← x.linear m.w_vs).view [(B : Int), (N : Int), (m.num_heads : Int), (m.head_dims : Int)]
  let q ← q.transpose 1 2
  let k ← k.transpose 1 2
  let v ← v.transpose 1 2
  let kt ← k.transpose (-2) (-1)
  let attn := Tensor.smul m.scale (← q.matmul kt)
  let attn ← addScoreBias m m.relative_position attn q B N
  let attn := attn.softmaxLast qexp
  let attn := attn.dropout m.attn_drop_p ctx.training ctx.maskAttn
  let y ← (← attn.matmul v).transpose 1 2
  let y ← y.reshape [(B : Int), (N : Int), (m.embed_dims : Int)]
  let y ← addValueBias m m.relative_position y attn B N
  let y ← y.linear m.proj
  let y := (y.dropout m.proj_drop_p ctx.training ctx.maskProj).dropout
    m.out_drop_p ctx.training ctx.maskOut
  pure (v, y)

/-- `MultiheadAttention.forward` (source lines 92-125): the shared pipeline
followed by the optional value shortcut `x = v.squeeze(1) + x`. -/
def MultiheadAttention.forward (m : MultiheadAttention) (ctx : DropoutCtx)
    (qexp : ℚ → ℚ) (x : Tensor) : Except PyErr Tensor := do
  let (v, y) ← m.forwardCore ctx qexp x
  vShortcutStep m.v_shortcut v y

/-- State-passing form of `MultiheadAttention.forward`: the body of the source
function assigns only to local names (`q`, `k`, `v`, `attn`, `x`), never to an
attribute of `self`, so the module value is returned unchanged alongside the
output. -/
def MultiheadAttention.forwardST (m : MultiheadAttention) (ctx : DropoutCtx)
    (qexp : ℚ → ℚ) (x : Tensor) : Except PyErr (Tensor × MultiheadAttention) := do
  let (v, y) ← m.forwardCore ctx qexp x
  let out ← vShortcutStep m.v_shortcut v y
  pure (out, m)

/-- State of a constructed `DynamicMultiheadAttention` (source lines 128-147):
the inherited static state, the `mutable_attrs` binding for `num_heads`
(`none` when no mutable has been registered), and the two dynamic
relative-position modules that overwrite the static ones. -/
structure DynamicMultiheadAttention where
  static : MultiheadAttention
  mutable_num_heads : Option Nat
  rel_pos_embed_k : Option DynamicRelativePosition2D
  rel_pos_embed_v : Option DynamicRelativePosition2D

/-- The fresh random initial values for the two dynamic relative-position
tables allocated by `DynamicMultiheadAttention.__init__`. -/
structure DynFresh where
  tk : Nat → Nat → ℚ
  tv : Nat → Nat → ℚ

/-- `DynamicMultiheadAttention.__init__` (source lines 137-147): run the static
constructor, start with an empty `mutable_attrs` dict, and, when relative
position is enabled, replace the relative-position modules by freshly
initialised `DynamicRelativePosition2D` instances built from `self.num_heads`
and `self.max_relative_position`. -/
def DynamicMultiheadAttention.init (a : MHAArgs) (f : FreshParams) (rsqrt : Nat → ℚ)
    (fd : DynFresh) : Except PyErr DynamicMultiheadAttention := do
  let s ← MultiheadAttention.init a f rsqrt
  pure
    { static := s
      mutable_num_heads := none
      rel_pos_embed_k :=
        if s.relative_position then
          some ⟨s.num_heads, s.max_relative_position, fd.tk⟩
        else none
      rel_pos_embed_v :=
        if s.relative_position then
          some ⟨s.num_heads, s.max_relative_position, fd.tv⟩
        else none }

/-- `DynamicMultiheadAttention.convert_from` (source lines 149-155): construct
a dynamic instance passing only `embed_dims` and `num_heads` of the given
static module; every other constructor option takes its default value, and all
parameter tensors are freshly initialised. -/
def DynamicMultiheadAttention.convert_from (module : MultiheadAttention)
    (f : FreshParams) (rsqrt : Nat → ℚ) (fd : DynFresh) :
    Except PyErr DynamicMultiheadAttention :=
  DynamicMultiheadAttention.init
    { embed_dims := module.embed_dims, num_heads := module.num_heads } f rsqrt fd

/-- Calling a `torch.Size` object as a function: `torch.Size` is a tuple
subclass and is not callable, so this raises `TypeError` for every index. -/
def sizeCall (_s : List Nat) (_i : Nat) : Except PyErr Nat :=
  Except.error PyErr.typeError

/-- `DynamicMultiheadAttention.forward` (source lines 160-195).  Its first
statement, `B, N = x.shape(0), x.shape1(1)` (line 161), evaluates
`x.shape(0)`, which raises `TypeError` because `x.shape` is a `torch.Size`;
every call therefore raises before anything else runs.  (The remaining body is
unreachable; it would fail anyway: `x.shape1` (line 161), `self.weight`
(line 163), `self.k_qs` (line 166), `self.v_qs` (line 167) and `self.unit`
(lines 169-171) are attributes that do not exist, line 194
`x = self.proj_drop(x),` binds a 1-tuple, and no `v_shortcut` or `out_drop`
step is present.) -/
def DynamicMultiheadAttention.forward (m : DynamicMultiheadAttention)
    (ctx : DropoutCtx) (qexp : ℚ → ℚ) (x : Tensor) : Except PyErr Tensor := do
  let B ← sizeCall x.shape 0
  let _ := (B, m, ctx, qexp)
  throw PyErr.attributeError

/-- The attention-score step of the dynamic forward, line 175:
`attn = (q @ k.transpose(-2, -1)) * self.scale`.  The multiplier is the stored
`self.scale`; the effective head count `num_heads` resolved on line 162 does
not occur in the expression. -/
def dynAttnScores (m : MultiheadAttention) (num_heads_eff : Nat) (q k : Tensor) :
    Except PyErr Tensor := do
  let _ := num_heads_eff
  let kt ← k.transpose (-2) (-1)
  pure (Tensor.smul m.scale (← q.matmul kt))

/-- A concrete exponential stand-in for evaluating witnesses. -/
def qexp0 : ℚ → ℚ := fun _ => 1

/-- A concrete inverse-square-root stand-in for evaluating witnesses. -/
def rsqrt0 : Nat → ℚ := fun _ => 1

/-- Concrete all-zero fresh initial parameter values. -/
def F0 : FreshParams :=
  ⟨fun _ _ => 0, fun _ => 0, fun _ _ => 0, fun _ => 0, fun _ _ => 0, fun _ => 0,
   fun _ _ => 0, fun _ => 0, fun _ _ => 0, fun _ _ => 0⟩

/-- Concrete all-zero fresh dynamic relative-position tables. -/
def FD0 : DynFresh := ⟨fun _ _ => 0, fun _ _ => 0⟩

/-- An inference-mode dropout context (masks all-keep). -/
def evalCtx : DropoutCtx := ⟨false, fun _ => true, fun _ => true, fun _ => true⟩

/-- A second inference-mode dropout context with different mask draws. -/
def evalCtx2 : DropoutCtx := ⟨false, fun _ => false, fun _ => false, fun _ => false⟩

/-- A concrete all-zero input of shape `(2, 10, 64)`. -/
def X0 : Tensor := ⟨[2, 10, 64], List.replicate 1280 0⟩

/-- A concrete static module, as built by `MultiheadAttention.init` with
`embed_dims = 8`, `num_heads = 2`, `max_relative_position = 7`,
`v_shortcut = true` and all-zero fresh parameters (`rsqrt0` for the scale). -/
def M7 : MultiheadAttention :=
  { input_dims := 8, embed_dims := 8, num_heads := 2, v_shortcut := true,
    relative_position := true, max_relative_position := 7, head_dims := 4,
    scale := 1,
    w_qs := mkLinear 8 8 true (fun _ _ => 0) (fun _ => 0),
    w_ks := mkLinear 8 8 true (fun _ _ => 0) (fun _ => 0),
    w_vs := mkLinear 8 8 true (fun _ _ => 0) (fun _ => 0),
    attn_drop_p := 0,
    proj := mkLinear 8 8 true (fun _ _ => 0) (fun _ => 0),
    proj_drop_p := 0, out_drop_p := 0,
    rel_pos_embed_k := some ⟨2, 7, fun _ _ => 0⟩,
    rel_pos_embed_v := some ⟨2, 7, fun _ _ => 0⟩ }

end DynAttn

namespace DynAttn

theorem bind_op {α β : Type} {e : Except PyErr α} {t : α} (h : e = Except.ok t)
    (f : α → Except PyErr β) : (e >>= f) = f t := by
  rw [h]
  rfl

theorem epure_bind {α β : Type} (a : α) (f : α → Except PyErr β) :
    (Pure.pure a >>= f : Except PyErr β) = f a := rfl

theorem ebind_ok {α β : Type} (a : α) (f : α → Except PyErr β) :
    (Except.ok a >>= f) = f a := rfl

theorem ebind_ok2 {α β : Type} (a : α) (f : α → Except PyErr β) :
    Except.bind (Except.ok a) f = f a := rfl

theorem ebind_pure2 {α β : Type} (a : α) (f : α → Except PyErr β) :
    Except.bind (Pure.pure a) f = f a := rfl

theorem emap_ok {α β : Type} (g : α → β) (a : α) :
    (Except.map g (Except.ok a) : Except PyErr β) = .ok (g a) := rfl

theorem numel_of_shape (t : Tensor) (s : List Nat) (h : t.shape = s) :
    t.numel = s.prod := by
  unfold Tensor.numel
  rw [h]

theorem ofFn_shape (s : List Nat) (f : List Nat → ℚ) : (Tensor.ofFn s f).shape = s := rfl

theorem reshape_shape (t : Tensor) (dims : List Int) (s : List Nat)
    (h : resolveShape t.numel dims = some s) :
    ∃ u, t.reshape dims = .ok u ∧ u.shape = s := by
  unfold Tensor.reshape
  rw [h]
  exact ⟨_, rfl, rfl⟩

theorem view_shape (t : Tensor) (dims : List Int) (s : List Nat)
    (h : resolveShape t.numel dims = some s) :
    ∃ u, t.view dims = .ok u ∧ u.shape = s := by
  unfold Tensor.view
  exact reshape_shape t dims s h

theorem linear_shape (t : Tensor) (l : Linear) (out inf : Nat) (pre : List Nat)
    (hw : l.weight.shape = [out, inf]) (hx : t.shape = pre ++ [inf]) :
    ∃ u, t.linear l = .ok u ∧ u.shape = pre ++ [out] := by
  unfold Tensor.linear
  rw [hw, hx]
  rw [List.reverse_append]
  simp only [List.reverse_cons, List.reverse_nil, List.nil_append, List.singleton_append]
  exact ⟨_, rfl, by simp [ofFn_shape]⟩

theorem transpose_shape (t : Tensor) (d1 d2 : Int) (s : List Nat) (i j : Nat)
    (hts : t.shape = s) (hi : normDim s.length d1 = (i : Int))
    (hj : normDim s.length d2 = (j : Int)) (hir : i < s.length) (hjr : j < s.length) :
    ∃ u, t.transpose d1 d2 = .ok u ∧ u.shape = swapNat s i j := by
  unfold Tensor.transpose Tensor.rank
  rw [hts]
  simp only [hi, hj]
  rw [if_pos (by omega)]
  refine ⟨_, rfl, ?_⟩
  simp [ofFn_shape]

theorem matmul_shape (a b : Tensor) (batch : List Nat) (n m p : Nat)
    (ha : a.shape = batch ++ [n, m]) (hb : b.shape = batch ++ [m, p]) :
    ∃ u, a.matmul b = .ok u ∧ u.shape = batch ++ [n, p] := by
  unfold Tensor.matmul
  rw [ha, hb]
  simp only [List.reverse_append, List.reverse_cons, List.reverse_nil, List.nil_append,
    List.cons_append, List.singleton_append, and_self, eq_self_iff_true, if_true, ite_true]
  refine ⟨_, rfl, ?_⟩
  simp [ofFn_shape]

theorem permute_shape (t : Tensor) (perm : List Nat) (s : List Nat)
    (hts : t.shape = s)
    (hc : perm.length = s.length ∧ perm.all (· < s.length) ∧ perm.Nodup) :
    ∃ u, t.permute perm = .ok u ∧ u.shape = perm.map (fun p => s.getD p 0) := by
  unfold Tensor.permute Tensor.rank
  rw [hts]
  rw [if_pos hc]
  exact ⟨_, rfl, by simp [ofFn_shape]⟩

theorem add_shape (a b : Tensor) (h : a.shape = b.shape) :
    ∃ u, a.add b = .ok u ∧ u.shape = a.shape := by
  unfold Tensor.add
  rw [if_pos h]
  exact ⟨_, rfl, rfl⟩

theorem smul_shape (c : ℚ) (t : Tensor) : (Tensor.smul c t).shape = t.shape := rfl

theorem softmax_shape (qexp : ℚ → ℚ) (t : Tensor) :
    (t.softmaxLast qexp).shape = t.shape := rfl

theorem dropout_shape (p : ℚ) (b : Bool) (mask : Nat → Bool) (t : Tensor) :
    (t.dropout p b mask).shape = t.shape := by
  unfold Tensor.dropout
  cases b <;> rfl

theorem lookup_shape (r : RelativePosition2D) (lq lk : Nat) :
    (r.lookup lq lk).shape = [lq, lk, r.num_units] := rfl

theorem addScoreBias_off (m : MultiheadAttention) (attn q : Tensor) (B N : Nat) :
    addScoreBias m false attn q B N = .ok attn := rfl

theorem addValueBias_off (m : MultiheadAttention) (y attn : Tensor) (B N : Nat) :
    addValueBias m false y attn B N = .ok y := rfl

theorem vShortcutStep_off (v y : Tensor) : vShortcutStep false v y = .ok y := rfl

theorem staticRun64_off (wq wk wv wp tk tv : Nat → Nat → ℚ) (bq bk bv bp : Nat → ℚ)
    (xd : List ℚ) (qe : ℚ → ℚ) (r : Nat → ℚ) (ctx : DropoutCtx) :
    ((MultiheadAttention.init { embed_dims := 64, num_heads := 8, relative_position := false }
        ⟨wq, bq, wk, bk, wv, bv, wp, bp, tk, tv⟩ r).bind
      (fun m => m.forward ctx qe ⟨[2, 10, 64], xd⟩)).map Tensor.shape
      = .ok [2, 10, 64] := by
  simp only [MultiheadAttention.init]
  simp only [Nat.reduceDiv, Nat.reduceMul, reduceIte, reduceCtorEq]
  simp only [epure_bind, ebind_ok, ebind_ok2, ebind_pure2]
  simp only [MultiheadAttention.forward, MultiheadAttention.forwardCore]
  try dsimp only []
  simp only [Nat.cast_ofNat]
  rw [bind_op (show shapeBN (Tensor.shape ⟨[2, 10, 64], xd⟩) = .ok (2, 10) from rfl)]
  try dsimp only []
  simp only [Nat.cast_ofNat]
  obtain ⟨t1, h1, h1s⟩ := linear_shape ⟨[2, 10, 64], xd⟩ (mkLinear 64 64 true wq bq)
    64 64 [2, 10] rfl rfl
  rw [bind_op h1]
  try dsimp only []
  obtain ⟨q1, h2, h2s⟩ := view_shape t1 [2, 10, 8, 8] [2, 10, 8, 8]
    (by rw [numel_of_shape t1 ([2, 10] ++ [64]) h1s]; decide)
  rw [bind_op h2]
  try dsimp only []
  obtain ⟨t2, h3, h3s⟩ := linear_shape ⟨[2, 10, 64], xd⟩ (mkLinear 64 64 true wk bk)
    64 64 [2, 10] rfl rfl
  rw [bind_op h3]
  try dsimp only []
  obtain ⟨k1, h4, h4s⟩ := view_shape t2 [2, 10, 8, 8] [2, 10, 8, 8]
    (by rw [numel_of_shape t2 ([2, 10] ++ [64]) h3s]; decide)
  rw [bind_op h4]
  try dsimp only []
  obtain ⟨t3, h5, h5s⟩ := linear_shape ⟨[2, 10, 64], xd⟩ (mkLinear 64 64 true wv bv)
    64 64 [2, 10] rfl rfl
  rw [bind_op h5]
  try dsimp only []
  obtain ⟨v1, h6, h6s⟩ := view_shape t3 [2, 10, 8, 8] [2, 10, 8, 8]
    (by rw [numel_of_shape t3 ([2, 10] ++ [64]) h5s]; decide)
  rw [bind_op h6]
  try dsimp only []
  obtain ⟨q2, h7, h7s⟩ := transpose_shape q1 1 2 [2, 10, 8, 8] 1 2 h2s
    (by decide) (by decide) (by decide) (by decide)
  rw [bind_op h7]
  try dsimp only []
  have h7l : q2.shape = [2, 8, 10, 8] := h7s.trans (by decide)
  obtain ⟨k2, h8, h8s⟩ := transpose_shape k1 1 2 [2, 10, 8, 8] 1 2 h4s
    (by decide) (by decide) (by decide) (by decide)
  rw [bind_op h8]
  try dsimp only []
  have h8l : k2.shape = [2, 8, 10, 8] := h8s.trans (by decide)
  obtain ⟨v2, h9, h9s⟩ := transpose_shape v1 1 2 [2, 10, 8, 8] 1 2 h6s
    (by decide) (by decide) (by decide) (by decide)
  rw [bind_op h9]
  try dsimp only []
  have h9l : v2.shape = [2, 8, 10, 8] := h9s.trans (by decide)
  obtain ⟨kt, h10, h10s⟩ := transpose_shape k2 (-2) (-1) [2, 8, 10, 8] 2 3 h8l
    (by decide) (by decide) (by decide) (by decide)
  rw [bind_op h10]
  try dsimp only []
  have h10l : kt.shape = [2, 8] ++ [8, 10] := h10s.trans (by decide)
  obtain ⟨a1, h11, h11s⟩ := matmul_shape q2 kt [2, 8] 10 8 10 (h7l.trans rfl) h10l
  rw [bind_op h11]
  try dsimp only []
  rw [bind_op (addScoreBias_off _ _ _ _ _)]
  try dsimp only []
  have hds : (Tensor.dropout 0 ctx.training ctx.maskAttn
      (Tensor.softmaxLast qe (Tensor.smul (r 8) a1))).shape = [2, 8] ++ [10, 10] := by
    rw [dropout_shape, softmax_shape, smul_shape, h11s]
  obtain ⟨a2, h12, h12s⟩ := matmul_shape _ v2 [2, 8] 10 10 8 hds (h9l.trans rfl)
  rw [bind_op h12]
  try dsimp only []
  obtain ⟨y1, h13, h13s⟩ := transpose_shape a2 1 2 [2, 8, 10, 8] 1 2 (h12s.trans rfl)
    (by decide) (by decide) (by decide) (by decide)
  rw [bind_op h13]
  try dsimp only []
  obtain ⟨y2, h14, h14s⟩ := reshape_shape y1 [2, 10, 64] [2, 10, 64]
    (by rw [numel_of_shape y1 (swapNat [2, 8, 10, 8] 1 2) h13s]; decide)
  rw [bind_op h14]
  try dsimp only []
  rw [bind_op (addValueBias_off _ _ _ _ _)]
  try dsimp only []
  obtain ⟨y3, h15, h15s⟩ := linear_shape y2 (mkLinear 64 64 true wp bp) 64 64 [2, 10]
    rfl (h14s.trans rfl)
  rw [bind_op h15]
  try dsimp only []
  rw [epure_bind]
  try dsimp only []
  rw [vShortcutStep_off]
  rw [emap_ok]
  rw [dropout_shape, dropout_shape, h15s]
  rfl


theorem staticRun64_on (wq wk wv wp tk tv : Nat → Nat → ℚ) (bq bk bv bp : Nat → ℚ)
    (xd : List ℚ) (qe : ℚ → ℚ) (r : Nat → ℚ) (ctx : DropoutCtx) :
    ((MultiheadAttention.init { embed_dims := 64, num_heads := 8 }
        ⟨wq, bq, wk, bk, wv, bv, wp, bp, tk, tv⟩ r).bind
      (fun m => m.forward ctx qe ⟨[2, 10, 64], xd⟩)).map Tensor.shape
      = .ok [2, 10, 64] := by
  simp only [MultiheadAttention.init]
  simp only [Nat.reduceDiv, Nat.reduceMul, reduceIte, reduceCtorEq]
  simp only [epure_bind, ebind_ok, ebind_ok2, ebind_pure2]
  simp only [MultiheadAttention.forward, MultiheadAttention.forwardCore]
  try dsimp only []
  simp only [Nat.cast_ofNat]
  rw [bind_op (show shapeBN (Tensor.shape ⟨[2, 10, 64], xd⟩) = .ok (2, 10) from rfl)]
  try dsimp only []
  simp only [Nat.cast_ofNat]
  obtain ⟨t1, h1, h1s⟩ := linear_shape ⟨[2, 10, 64], xd⟩ (mkLinear 64 64 true wq bq)
    64 64 [2, 10] rfl rfl
  rw [bind_op h1]
  try dsimp only []
  obtain ⟨q1, h2, h2s⟩ := view_shape t1 [2, 10, 8, 8] [2, 10, 8, 8]
    (by rw [numel_of_shape t1 ([2, 10] ++ [64]) h1s]; decide)
  rw [bind_op h2]
  try dsimp only []
  obtain ⟨t2, h3, h3s⟩ := linear_shape ⟨[2, 10, 64], xd⟩ (mkLinear 64 64 true wk bk)
    64 64 [2, 10] rfl rfl
  rw [bind_op h3]
  try dsimp only []
  obtain ⟨k1, h4, h4s⟩ := view_shape t2 [2, 10, 8, 8] [2, 10, 8, 8]
    (by rw [numel_of_shape t2 ([2, 10] ++ [64]) h3s]; decide)
  rw [bind_op h4]
  try dsimp only []
  obtain ⟨t3, h5, h5s⟩ := linear_shape ⟨[2, 10, 64], xd⟩ (mkLinear 64 64 true wv bv)
    64 64 [2, 10] rfl rfl
  rw [bind_op h5]
  try dsimp only []
  obtain ⟨v1, h6, h6s⟩ := view_shape t3 [2, 10, 8, 8] [2, 10, 8, 8]
    (by rw [numel_of_shape t3 ([2, 10] ++ [64]) h5s]; decide)
  rw [bind_op h6]
  try dsimp only []
  obtain ⟨q2, h7, h7s⟩ := transpose_shape q1 1 2 [2, 10, 8, 8] 1 2 h2s
    (by decide) (by decide) (by decide) (by decide)
  rw [bind_op h7]
  try dsimp only []
  have h7l : q2.shape = [2, 8, 10, 8] := h7s.trans (by decide)
  obtain ⟨k2, h8, h8s⟩ := transpose_shape k1 1 2 [2, 10, 8, 8] 1 2 h4s
    (by decide) (by decide) (by decide) (by decide)
  rw [bind_op h8]
  try dsimp only []
  have h8l : k2.shape = [2, 8, 10, 8] := h8s.trans (by decide)
  obtain ⟨v2, h9, h9s⟩ := transpose_shape v1 1 2 [2, 10, 8, 8] 1 2 h6s
    (by decide) (by decide) (by decide) (by decide)
  rw [bind_op h9]
  try dsimp only []
  have h9l : v2.shape = [2, 8, 10, 8] := h9s.trans (by decide)
  obtain ⟨kt, h10, h10s⟩ := transpose_shape k2 (-2) (-1) [2, 8, 10, 8] 2 3 h8l
    (by decide) (by decide) (by decide) (by decide)
  rw [bind_op h10]
  try dsimp only []
  have h10l : kt.shape = [2, 8] ++ [8, 10] := h10s.trans (by decide)
  obtain ⟨a1, h11, h11s⟩ := matmul_shape q2 kt [2, 8] 10 8 10 (h7l.trans rfl) h10l
  rw [bind_op h11]
  try dsimp only []
  simp only [addScoreBias, reduceIte]
  try dsimp only []
  simp only [Nat.reduceMul, Nat.cast_ofNat]
  rw [bind_op (show getRel (some ⟨8, 14, tk⟩) = .ok ⟨8, 14, tk⟩ from rfl)]
  try dsimp only []
  obtain ⟨p1, hp1, hp1s⟩ := permute_shape q2 [2, 0, 1, 3] [2, 8, 10, 8] h7l (by decide)
  rw [bind_op hp1]
  try dsimp only []
  have hp1l : p1.shape = [10, 2, 8, 8] := hp1s.trans (by decide)
  obtain ⟨p2, hp2, hp2s⟩ := reshape_shape p1 [10, 16, -1] [10, 16, 8]
    (by rw [numel_of_shape p1 [10, 2, 8, 8] hp1l]; decide)
  rw [bind_op hp2]
  try dsimp only []
  obtain ⟨rk, hrk, hrks⟩ := transpose_shape
    (RelativePosition2D.lookup ⟨8, 14, tk⟩ 10 10) 2 1 [10, 10, 8] 2 1
    ((lookup_shape _ 10 10).trans rfl) (by decide) (by decide) (by decide) (by decide)
  rw [bind_op hrk]
  try dsimp only []
  have hrkl : rk.shape = [10] ++ [8, 10] := hrks.trans (by decide)
  obtain ⟨m1, hm1, hm1s⟩ := matmul_shape p2 rk [10] 16 8 10 (hp2s.trans rfl) hrkl
  rw [bind_op hm1]
  try dsimp only []
  obtain ⟨m2, hm2, hm2s⟩ := transpose_shape m1 1 0 [10, 16, 10] 1 0 (hm1s.trans rfl)
    (by decide) (by decide) (by decide) (by decide)
  rw [bind_op hm2]
  try dsimp only []
  have hm2l : m2.shape = [16, 10, 10] := hm2s.trans (by decide)
  obtain ⟨m3, hm3, hm3s⟩ := reshape_shape m2 [2, 8, 10, 10] [2, 8, 10, 10]
    (by rw [numel_of_shape m2 [16, 10, 10] hm2l]; decide)
  rw [bind_op hm3]
  try dsimp only []
  obtain ⟨at2, h18, h18s⟩ := add_shape (Tensor.smul (r 8) a1) (Tensor.smul (r 8) m3)
    (by rw [smul_shape, smul_shape, h11s, hm3s]; rfl)
  rw [bind_op h18]
  try dsimp only []
  have h18l : at2.shape = [2, 8] ++ [10, 10] := by
    rw [h18s, smul_shape, h11s]
  have hds : (Tensor.dropout 0 ctx.training ctx.maskAttn
      (Tensor.softmaxLast qe at2)).shape = [2, 8] ++ [10, 10] := by
    rw [dropout_shape, softmax_shape, h18l]
  obtain ⟨a2, h19, h19s⟩ := matmul_shape _ v2 [2, 8] 10 10 8 hds (h9l.trans rfl)
  rw [bind_op h19]
  try dsimp only []
  obtain ⟨y1, h20, h20s⟩ := transpose_shape a2 1 2 [2, 8, 10, 8] 1 2 (h19s.trans rfl)
    (by decide) (by decide) (by decide) (by decide)
  rw [bind_op h20]
  try dsimp only []
  obtain ⟨y2, h21, h21s⟩ := reshape_shape y1 [2, 10, 64] [2, 10, 64]
    (by rw [numel_of_shape y1 (swapNat [2, 8, 10, 8] 1 2) h20s]; decide)
  rw [bind_op h21]
  try dsimp only []
  simp only [addValueBias, reduceIte]
  try dsimp only []
  simp only [Nat.reduceMul, Nat.cast_ofNat]
  rw [bind_op (show getRel (some ⟨8, 14, tv⟩) = .ok ⟨8, 14, tv⟩ from rfl)]
  try dsimp only []
  obtain ⟨ta1, h22, h22s⟩ := permute_shape
    (Tensor.dropout 0 ctx.training ctx.maskAttn (Tensor.softmaxLast qe at2))
    [2, 0, 1, 3] [2, 8, 10, 10] (hds.trans rfl) (by decide)
  rw [bind_op h22]
  try dsimp only []
  have h22l : ta1.shape = [10, 2, 8, 10] := h22s.trans (by decide)
  obtain ⟨ta2, h23, h23s⟩ := reshape_shape ta1 [10, 16, -1] [10, 16, 10]
    (by rw [numel_of_shape ta1 [10, 2, 8, 10] h22l]; decide)
  rw [bind_op h23]
  try dsimp only []
  obtain ⟨w1, h24, h24s⟩ := matmul_shape ta2
    (RelativePosition2D.lookup ⟨8, 14, tv⟩ 10 10) [10] 16 10 8
    (h23s.trans rfl) ((lookup_shape _ 10 10).trans rfl)
  rw [bind_op h24]
  try dsimp only []
  obtain ⟨w2, h25, h25s⟩ := transpose_shape w1 1 0 [10, 16, 8] 1 0 (h24s.trans rfl)
    (by decide) (by decide) (by decide) (by decide)
  rw [bind_op h25]
  try dsimp only []
  have h25l : w2.shape = [16, 10, 8] := h25s.trans (by decide)
  obtain ⟨w3, h26, h26s⟩ := reshape_shape w2 [2, 8, 10, -1] [2, 8, 10, 8]
    (by rw [numel_of_shape w2 [16, 10, 8] h25l]; decide)
  rw [bind_op h26]
  try dsimp only []
  obtain ⟨w4, h27, h27s⟩ := transpose_shape w3 2 1 [2, 8, 10, 8] 2 1 h26s
    (by decide) (by decide) (by decide) (by decide)
  rw [bind_op h27]
  try dsimp only []
  have h27l : w4.shape = [2, 10, 8, 8] := h27s.trans (by decide)
  obtain ⟨w5, h28, h28s⟩ := reshape_shape w4 [2, 10, -1] [2, 10, 64]
    (by rw [numel_of_shape w4 [2, 10, 8, 8] h27l]; decide)
  rw [bind_op h28]
  try dsimp only []
  obtain ⟨y4, h29, h29s⟩ := add_shape y2 w5 (by rw [h21s, h28s])
  rw [bind_op h29]
  try dsimp only []
  obtain ⟨y5, h30, h30s⟩ := linear_shape y4 (mkLinear 64 64 true wp bp) 64 64 [2, 10]
    rfl ((h29s.trans h21s).trans rfl)
  rw [bind_op h30]
  try dsimp only []
  rw [epure_bind]
  try dsimp only []
  rw [vShortcutStep_off]
  rw [emap_ok]
  rw [dropout_shape, dropout_shape, h30s]
  rfl

end DynAttn

namespace DynAttn

theorem emap_pure {α β : Type} (g : α → β) (a : α) :
    (Except.map g (Pure.pure a) : Except PyErr β) = .ok (g a) := rfl

theorem emap_error {α β : Type} (g : α → β) (e : PyErr) :
    (Except.map g (Except.error e) : Except PyErr β) = .error e := rfl

theorem ethrow_bind {α β : Type} (e : PyErr) (f : α → Except PyErr β) :
    ((throw e : Except PyErr α) >>= f) = .error e := rfl

theorem bind_vs_map {α β : Type} (e : Except PyErr α) (g : α → β) :
    (e >>= fun p => (Except.ok (g p) : Except PyErr β)) = e.map g := by
  cases e <;> rfl

theorem mapIdx_id (f : Nat → ℚ → ℚ) (hf : ∀ n a, f n a = a) :
    ∀ l : List ℚ, l.mapIdx f = l := by
  intro l
  apply List.ext_getElem
  · simp
  · intro n hn hl
    simp only [List.getElem_mapIdx]
    exact hf _ _

/-- Claim C1 (refuted; the defect is in the code): the claimed
static/dynamic equivalence at maximal width cannot hold, because every
`DynamicMultiheadAttention.forward` call raises `TypeError` (line 161
evaluates `x.shape(0)`, calling a `torch.Size`), while the static
`MultiheadAttention.forward` at `embed_dims = 64`, `num_heads = 8` returns a
`(2, 10, 64)` tensor for the same input, both with `relative_position`
enabled and disabled. -/
theorem C1_dynamic_static_equivalence_fails
    (wq wk wv wp tk tv : Nat → Nat → ℚ) (bq bk bv bp : Nat → ℚ)
    (xd : List ℚ) (qe : ℚ → ℚ) (r : Nat → ℚ) (ctx : DropoutCtx) :
    (∀ (dm : DynamicMultiheadAttention) (x : Tensor),
      DynamicMultiheadAttention.forward dm ctx qe x = .error PyErr.typeError)
    ∧ ((MultiheadAttention.init { embed_dims := 64, num_heads := 8 }
          ⟨wq, bq, wk, bk, wv, bv, wp, bp, tk, tv⟩ r).bind
        (fun m => m.forward ctx qe ⟨[2, 10, 64], xd⟩)).map Tensor.shape
        = .ok [2, 10, 64]
    ∧ ((MultiheadAttention.init
          { embed_dims := 64, num_heads := 8, relative_position := false }
          ⟨wq, bq, wk, bk, wv, bv, wp, bp, tk, tv⟩ r).bind
        (fun m => m.forward ctx qe ⟨[2, 10, 64], xd⟩)).map Tensor.shape
        = .ok [2, 10, 64] :=
  ⟨fun _ _ => rfl,
   staticRun64_on wq wk wv wp tk tv bq bk bv bp xd qe r ctx,
   staticRun64_off wq wk wv wp tk tv bq bk bv bp xd qe r ctx⟩

/-- Claim C2 (static half holds; the dynamic half fails in the code): for an
input of shape `(2, 10, 64)` and a module built with `embed_dims = 64`,
`num_heads = 8`, the static forward returns a tensor of shape exactly
`(2, 10, 64)`, but the dynamic variant raises `TypeError` on line 161 before
producing any output. -/
theorem C2_shape_contract
    (wq wk wv wp tk tv : Nat → Nat → ℚ) (bq bk bv bp : Nat → ℚ)
    (xd : List ℚ) (qe : ℚ → ℚ) (r : Nat → ℚ) (ctx : DropoutCtx) :
    ((MultiheadAttention.init { embed_dims := 64, num_heads := 8 }
        ⟨wq, bq, wk, bk, wv, bv, wp, bp, tk, tv⟩ r).bind
      (fun m => m.forward ctx qe ⟨[2, 10, 64], xd⟩)).map Tensor.shape
      = .ok [2, 10, 64]
    ∧ ∀ dm : DynamicMultiheadAttention,
        DynamicMultiheadAttention.forward dm ctx qe ⟨[2, 10, 64], xd⟩
          = .error PyErr.typeError :=
  ⟨staticRun64_on wq wk wv wp tk tv bq bk bv bp xd qe r ctx, fun _ => rfl⟩

/-- Claim C3, counterexample: constructing with `embed_dims = 65`,
`num_heads = 8` raises nothing — the constructor succeeds and silently sets
`head_dims = 65 // 8 = 8`; no `ConfigurationError` is raised at construction
time. -/
theorem C3_counterexample :
    (MultiheadAttention.init { embed_dims := 65, num_heads := 8 } F0 rsqrt0).map
      MultiheadAttention.head_dims = Except.ok 8 := rfl

/-- Claim C3, amended: the constructor performs no divisibility check — for
every `embed_dims` and `num_heads` (with default options), as long as
`num_heads ≠ 0` and `embed_dims // num_heads ≠ 0`, construction succeeds with
`head_dims` the floor quotient. -/
theorem C3_no_divisibility_check (e h : Nat) (f : FreshParams) (r : Nat → ℚ)
    (h1 : h ≠ 0) (h2 : e / h ≠ 0) :
    (MultiheadAttention.init { embed_dims := e, num_heads := h } f r).map
      MultiheadAttention.head_dims = Except.ok (e / h) := by
  unfold MultiheadAttention.init
  dsimp only []
  rw [if_neg h1]
  try dsimp only [epure_bind]
  rw [if_neg h2]
  try dsimp only [epure_bind]
  rfl

theorem C3_witness :
    (MultiheadAttention.init { embed_dims := 65, num_heads := 8 } F0 rsqrt0).map
      MultiheadAttention.head_dims = Except.ok (65 / 8) :=
  C3_no_divisibility_check 65 8 F0 rsqrt0 (by decide) (by decide)

/-- Claim C4 (refuted; the defect is in the code): no dynamic forward call
ever resolves an effective head count — with or without a registered binding
for `num_heads`, the call raises `TypeError` on line 161 before the binding
is read, so the claimed fallback behaviour (and the claim that the call
succeeds) never materialises. -/
theorem C4_dynamic_forward_ignores_binding
    (dm : DynamicMultiheadAttention) (ctx : DropoutCtx) (qe : ℚ → ℚ) (x : Tensor) :
    DynamicMultiheadAttention.forward { dm with mutable_num_heads := none } ctx qe x
      = .error PyErr.typeError
    ∧ ∀ c : Nat,
        DynamicMultiheadAttention.forward { dm with mutable_num_heads := some c }
          ctx qe x = .error PyErr.typeError :=
  ⟨rfl, fun _ => rfl⟩

/-- Claim C5 (static half holds; the dynamic half fails in the code): with
`v_shortcut` enabled the static forward returns the per-head squeeze of the
pre-attention value tensor added to the post-projection, post-dropout result
(the output of the same pipeline with the shortcut disabled); the dynamic
forward contains no such step and raises `TypeError` on every call. -/
theorem C5_v_shortcut (m : MultiheadAttention) (ctx : DropoutCtx) (qe : ℚ → ℚ)
    (x : Tensor) :
    (MultiheadAttention.forward { m with v_shortcut := true } ctx qe x
      = (MultiheadAttention.forwardCore { m with v_shortcut := false } ctx qe x).bind
          (fun p => (p.1.squeeze 1).add p.2))
    ∧ (MultiheadAttention.forward { m with v_shortcut := false } ctx qe x
      = (MultiheadAttention.forwardCore { m with v_shortcut := false } ctx qe x).map
          Prod.snd)
    ∧ ∀ dm : DynamicMultiheadAttention,
        DynamicMultiheadAttention.forward dm ctx qe x = .error PyErr.typeError := by
  refine ⟨?_, ?_, fun _ => rfl⟩
  · cases m
    rfl
  · cases m
    exact bind_vs_map _ _

/-- Claim C6, counterexample: `convert_from` does not pre-populate the
dynamic module with the static module's structural hyperparameters — for the
concrete static module `M7` (built with `max_relative_position = 7`,
`v_shortcut = true`), the converted module has `max_relative_position = 14`
and `v_shortcut = false`. -/
theorem C6_counterexample :
    ((DynamicMultiheadAttention.convert_from M7 F0 rsqrt0 FD0).map
      (fun d => (d.static.max_relative_position, d.static.v_shortcut))
      = Except.ok (14, false))
    ∧ M7.max_relative_position = 7 ∧ M7.v_shortcut = true :=
  ⟨rfl, rfl, rfl⟩

/-- Claim C6, amended: `convert_from` copies only `embed_dims` and
`num_heads` from the static module; the relative-position tables and all four
projection layers of the result are freshly initialised (built from the fresh
parameter draws, not copied from the source module), `mutable_attrs` starts
empty, and every other constructor option takes its default value
(`input_dims = embed_dims`, `max_relative_position = 14`,
`relative_position = true`, `v_shortcut = false`). -/
theorem C6_convert_from_copies_only_dims (module : MultiheadAttention)
    (f : FreshParams) (r : Nat → ℚ) (fd : DynFresh)
    (h1 : module.num_heads ≠ 0) (h2 : module.embed_dims / module.num_heads ≠ 0) :
    ((DynamicMultiheadAttention.convert_from module f r fd).map
      (fun d => (d.static.embed_dims, d.static.num_heads, d.static.input_dims,
        d.static.max_relative_position, d.static.relative_position,
        d.static.v_shortcut, d.mutable_num_heads))
      = .ok (module.embed_dims, module.num_heads, module.embed_dims, 14, true,
          false, none))
    ∧ ((DynamicMultiheadAttention.convert_from module f r fd).map
      (fun d => (d.rel_pos_embed_k, d.rel_pos_embed_v))
      = .ok (some ⟨module.num_heads, 14, fd.tk⟩, some ⟨module.num_heads, 14, fd.tv⟩))
    ∧ ((DynamicMultiheadAttention.convert_from module f r fd).map
      (fun d => (d.static.w_qs, d.static.w_ks, d.static.w_vs, d.static.proj))
      = .ok
        (mkLinear module.embed_dims
          (module.num_heads * (module.embed_dims / module.num_heads)) true f.wq f.bq,
         mkLinear module.embed_dims
          (module.num_heads * (module.embed_dims / module.num_heads)) true f.wk f.bk,
         mkLinear module.embed_dims
          (module.num_heads * (module.embed_dims / module.num_heads)) true f.wv f.bv,
         mkLinear module.embed_dims module.embed_dims true f.wp f.bp)) := by
  refine ⟨?_, ?_, ?_⟩ <;>
  · unfold DynamicMultiheadAttention.convert_from DynamicMultiheadAttention.init
      MultiheadAttention.init
    dsimp only []
    rw [if_neg h1]
    try dsimp only [epure_bind]
    rw [if_neg h2]
    try dsimp only [epure_bind]
    rfl

theorem C6_witness :
    (DynamicMultiheadAttention.convert_from M7 F0 rsqrt0 FD0).map
      (fun d => (d.static.embed_dims, d.static.num_heads, d.static.input_dims,
        d.static.max_relative_position, d.static.relative_position,
        d.static.v_shortcut, d.mutable_num_heads))
      = .ok (M7.embed_dims, M7.num_heads, M7.embed_dims, 14, true, false, none) :=
  (C6_convert_from_copies_only_dims M7 F0 rsqrt0 FD0 (by decide) (by decide)).1

/-- Claim C7: the attention-score scale is fixed at construction — it equals
`rsqrt head_dims` with `head_dims = embed_dims // num_heads` computed from
the static maxima when no (truthy) `qk_scale` override is given, equals the
override otherwise, and the score expression of the dynamic forward
(line 175) multiplies by this stored scale, independent of the effective head
count. -/
theorem C7_scale_from_fixed_head_dims :
    (∀ (e h : Nat) (f : FreshParams) (r : Nat → ℚ), h ≠ 0 → e / h ≠ 0 →
      (MultiheadAttention.init { embed_dims := e, num_heads := h } f r).map
        (fun m => (m.scale, m.head_dims)) = Except.ok (r (e / h), e / h))
    ∧ (∀ (e h : Nat) (c : ℚ) (f : FreshParams) (r : Nat → ℚ), h ≠ 0 → c ≠ 0 →
      (MultiheadAttention.init
        { embed_dims := e, num_heads := h, qk_scale := some c } f r).map
        MultiheadAttention.scale = Except.ok c)
    ∧ ∀ (m : MultiheadAttention) (nh nh2 : Nat) (q k : Tensor),
        dynAttnScores m nh q k = dynAttnScores m nh2 q k := by
  refine ⟨?_, ?_, fun _ _ _ _ _ => rfl⟩
  · intro e h f r h1 h2
    unfold MultiheadAttention.init
    dsimp only []
    rw [if_neg h1]
    try dsimp only [epure_bind]
    rw [if_neg h2]
    try dsimp only [epure_bind]
    rfl
  · intro e h c f r h1 hc
    unfold MultiheadAttention.init
    dsimp only []
    rw [if_neg h1]
    try dsimp only [epure_bind]
    rw [if_neg hc]
    try dsimp only [epure_bind]
    rfl

theorem C7_witness :
    ((MultiheadAttention.init { embed_dims := 64, num_heads := 8 } F0 rsqrt0).map
      (fun m => (m.scale, m.head_dims)) = Except.ok (rsqrt0 (64 / 8), 64 / 8))
    ∧ (MultiheadAttention.init
        { embed_dims := 64, num_heads := 8, qk_scale := some 2 } F0 rsqrt0).map
        MultiheadAttention.scale = Except.ok 2 :=
  ⟨C7_scale_from_fixed_head_dims.1 64 8 F0 rsqrt0 (by decide) (by decide),
   C7_scale_from_fixed_head_dims.2.1 64 8 2 F0 rsqrt0 (by decide) (by decide)⟩

/-- Claim C8: in inference mode the static forward is deterministic — its
output does not depend on the dropout mask draws, so two calls on identical
inputs and weights agree; moreover dropout in evaluation mode is the exact
identity for every probability, and in training mode with `p = 0` it is the
exact identity as well (the keep-mask is almost surely all-ones and the
rescaling factor is `1/(1-0) = 1`). -/
theorem C8_inference_deterministic (m : MultiheadAttention) (qe : ℚ → ℚ)
    (x : Tensor) (ctx1 ctx2 : DropoutCtx)
    (h1 : ctx1.training = false) (h2 : ctx2.training = false) :
    MultiheadAttention.forward m ctx1 qe x = MultiheadAttention.forward m ctx2 qe x
    ∧ (∀ (p : ℚ) (mask : Nat → Bool) (t : Tensor), Tensor.dropout p false mask t = t)
    ∧ (∀ (mask : Nat → Bool) (t : Tensor), (∀ n, mask n = true) →
        Tensor.dropout 0 true mask t = t) := by
  refine ⟨?_, fun _ _ _ => rfl, ?_⟩
  · obtain ⟨t1, a1, p1, o1⟩ := ctx1
    obtain ⟨t2, a2, p2, o2⟩ := ctx2
    simp only at h1 h2
    subst h1
    subst h2
    rfl
  · intro mask t hm
    unfold Tensor.dropout
    simp only [if_true, ite_true]
    obtain ⟨sh, d⟩ := t
    simp only [Tensor.mk.injEq, true_and]
    exact mapIdx_id _ (fun n a => by rw [hm n]; simp) d

theorem C8_witness :
    MultiheadAttention.forward M7 evalCtx qexp0 X0
      = MultiheadAttention.forward M7 evalCtx2 qexp0 X0 :=
  (C8_inference_deterministic M7 qexp0 X0 evalCtx evalCtx2 rfl rfl).1

/-- Claim C9: a forward call leaves the module state unchanged — the
state-passing translation of the static forward returns the module value it
was called with whenever it returns at all (the body assigns only to locals),
and the dynamic forward raises before touching any state. -/
theorem C9_forward_frame (m : MultiheadAttention) (ctx : DropoutCtx)
    (qe : ℚ → ℚ) (x : Tensor) :
    ((MultiheadAttention.forwardST m ctx qe x).map Prod.snd
      = (MultiheadAttention.forwardST m ctx qe x).map (fun _ => m))
    ∧ ∀ dm : DynamicMultiheadAttention,
        DynamicMultiheadAttention.forward dm ctx qe x = .error PyErr.typeError := by
  refine ⟨?_, fun _ => rfl⟩
  unfold MultiheadAttention.forwardST
  rcases MultiheadAttention.forwardCore m ctx qe x with e | p
  · rfl
  · obtain ⟨v, y⟩ := p
    rw [ebind_ok]
    dsimp only []
    rcases h2 : vShortcutStep m.v_shortcut v y with e2 | o <;> rfl

/-- Claim C10: a falsy `qk_scale` override (`0.0`, like `None`) is silently
replaced by the default `head_dims ** -0.5` — constructing with
`qk_scale = 0` yields exactly the same module as constructing with
`qk_scale = None`, and (since `d ** -0.5 > 0` for a positive integer `d`,
modelled by the hypothesis `rsqrt head_dims ≠ 0`) no choice of `qk_scale` can
make the stored scale zero. -/
theorem C10_falsy_qk_scale_replaced :
    (∀ (e h : Nat) (f : FreshParams) (r : Nat → ℚ),
      MultiheadAttention.init { embed_dims := e, num_heads := h, qk_scale := some 0 } f r
        = MultiheadAttention.init { embed_dims := e, num_heads := h } f r)
    ∧ ∀ (a : MHAArgs) (f : FreshParams) (r : Nat → ℚ),
        r (a.embed_dims / a.num_heads) ≠ 0 →
        (MultiheadAttention.init a f r).map MultiheadAttention.scale ≠ Except.ok 0 := by
  refine ⟨fun _ _ _ _ => rfl, ?_⟩
  intro a f r hr hcontra
  unfold MultiheadAttention.init at hcontra
  dsimp only [] at hcontra
  by_cases hh : a.num_heads = 0
  · rw [if_pos hh] at hcontra
    rw [ethrow_bind, emap_error] at hcontra
    exact Except.noConfusion hcontra
  · rw [if_neg hh] at hcontra
    try dsimp only [epure_bind] at hcontra
    rcases hqk : a.qk_scale with _ | c
    · rw [hqk] at hcontra
      try dsimp only [] at hcontra
      by_cases hd : a.embed_dims / a.num_heads = 0
      · rw [if_pos hd] at hcontra
        rw [ethrow_bind, emap_error] at hcontra
        exact Except.noConfusion hcontra
      · rw [if_neg hd] at hcontra
        try dsimp only [epure_bind] at hcontra
        rw [emap_pure] at hcontra
        exact hr (Except.ok.inj hcontra)
    · rw [hqk] at hcontra
      try dsimp only [] at hcontra
      by_cases hc : c = 0
      · rw [if_pos hc] at hcontra
        by_cases hd : a.embed_dims / a.num_heads = 0
        · rw [if_pos hd] at hcontra
          rw [ethrow_bind, emap_error] at hcontra
          exact Except.noConfusion hcontra
        · rw [if_neg hd] at hcontra
          try dsimp only [epure_bind] at hcontra
          rw [emap_pure] at hcontra
          exact hr (Except.ok.inj hcontra)
      · rw [if_neg hc] at hcontra
        try dsimp only [epure_bind] at hcontra
        rw [emap_pure] at hcontra
        exact hc (Except.ok.inj hcontra)

theorem C10_witness :
    (MultiheadAttention.init
      { embed_dims := 64, num_heads := 8, qk_scale := some 0 } F0 rsqrt0).map
      MultiheadAttention.scale ≠ Except.ok 0 :=
  C10_falsy_qk_scale_replaced.2
    { embed_dims := 64, num_heads := 8, qk_scale := some 0 } F0 rsqrt0 (by decide)

end DynAttn
